import Mathlib

/-!
Verification of the DODODATA content-aggregation engine against its
natural-language specification.  The definitions below are shallow
embeddings of the Python source files under `extinct_facts/` and
`image_search/`; theorems settle the frozen claims about them.
-/

namespace DodoData

/-! ### String helpers mirroring Python primitives -/

/-- Whether `needle` is an initial segment of `hay` (character lists). -/
def startsWithCh : List Char → List Char → Bool
  | _, [] => true
  | [], _ :: _ => false
  | c :: cs, d :: ds => c == d && startsWithCh cs ds

/-- Whether `needle` occurs contiguously inside `hay` (character lists). -/
def hasSub : List Char → List Char → Bool
  | [], needle => startsWithCh [] needle
  | c :: cs, needle => startsWithCh (c :: cs) needle || hasSub cs needle

/-- Python `sub in s` (substring containment test on strings). -/
def pyIn (sub s : String) : Bool := hasSub s.data sub.data

/-- Python `s.lower()` (per-character lowercasing). -/
def pyLower (s : String) : String := String.mk (s.data.map Char.toLower)

/-- Helper for `pySplit`: `cur` holds the characters of the word in
progress, in reverse order. -/
def pySplitGo (cur : List Char) : List Char → List String
  | [] => if cur = [] then [] else [String.mk cur.reverse]
  | c :: cs =>
    if c.isWhitespace then
      if cur = [] then pySplitGo [] cs
      else String.mk cur.reverse :: pySplitGo [] cs
    else pySplitGo (c :: cur) cs

/-- Python `s.split()` with no argument: split on whitespace runs,
dropping empty pieces. -/
def pySplit (s : String) : List String := pySplitGo [] s.data

/-- Python `s.strip()` with no argument: remove leading and trailing
whitespace. -/
def pyStrip (s : String) : String :=
  String.mk
    (((s.data.dropWhile Char.isWhitespace).reverse.dropWhile
      Char.isWhitespace).reverse)

/-- Helper for `pyTitle`: the Bool records whether the previous character
was alphabetic. -/
def pyTitleGo : Bool → List Char → List Char
  | _, [] => []
  | prevAlpha, c :: cs =>
    (if c.isAlpha then (if prevAlpha then c.toLower else c.toUpper) else c)
      :: pyTitleGo c.isAlpha cs

/-- Python `s.title()`: each alphabetic run starts with an uppercase
letter, the rest lowercased (alphabetic approximation of `str.title`). -/
def pyTitle (s : String) : String := String.mk (pyTitleGo false s.data)

/-! ### Image search: data model (image_search/image_service.py)

The dictionaries built by the source constructors always carry the keys
`url`, `thumbnail`, `title`, `source`, `source_url`, `author`, `width`,
`height`; they are modelled as a structure with those fields. -/

structure ImageItem where
  url : String
  thumbnail : String
  title : String
  source : String
  sourceUrl : String
  author : String
  width : Nat
  height : Nat
deriving DecidableEq

/-- Loop body of `MultiSourceImageSearch.remove_duplicates`: `seen` is the
set of urls already seen (as a list), items whose url was seen are
dropped, others appended and their url added to `seen`. -/
def removeDupGo (seen : List String) : List ImageItem → List ImageItem
  | [] => []
  | img :: rest =>
    if img.url ∈ seen then removeDupGo seen rest
    else img :: removeDupGo (img.url :: seen) rest

/-- `MultiSourceImageSearch.remove_duplicates`: keep the first item for
each url, preserving order. -/
def removeDuplicates (images : List ImageItem) : List ImageItem :=
  removeDupGo [] images

/-! ### Dedup lemmas -/

theorem removeDupGo_sublist (seen : List String) (l : List ImageItem) :
    (removeDupGo seen l).Sublist l := by
  induction l generalizing seen with
  | nil => simp [removeDupGo]
  | cons img rest ih =>
    simp only [removeDupGo]
    by_cases h : img.url ∈ seen
    · simp only [if_pos h]
      exact (ih seen).trans (List.sublist_cons_self img rest)
    · simp only [if_neg h]
      exact List.Sublist.cons₂ img (ih (img.url :: seen))

theorem removeDupGo_urls_nodup (seen : List String) (l : List ImageItem) :
    ((removeDupGo seen l).map (fun x => x.url)).Nodup ∧
      ∀ x ∈ removeDupGo seen l, x.url ∉ seen := by
  induction l generalizing seen with
  | nil => simp [removeDupGo]
  | cons img rest ih =>
    simp only [removeDupGo]
    by_cases h : img.url ∈ seen
    · simp only [if_pos h]
      exact ih seen
    · simp only [if_neg h, List.map_cons, List.nodup_cons, List.mem_map]
      obtain ⟨ihn, ihs⟩ := ih (img.url :: seen)
      refine ⟨⟨?_, ihn⟩, ?_⟩
      · rintro ⟨x, hx, hxe⟩
        exact ihs x hx (by simp [hxe])
      · intro x hx
        rcases List.mem_cons.mp hx with hx | hx
        · subst hx; exact h
        · intro hxs
          exact ihs x hx (by simp [hxs])

theorem removeDupGo_find (seen : List String) (l : List ImageItem) (u : String)
    (hu : u ∉ seen) :
    (removeDupGo seen l).find? (fun x => decide (x.url = u)) =
      l.find? (fun x => decide (x.url = u)) := by
  induction l generalizing seen with
  | nil => simp [removeDupGo]
  | cons img rest ih =>
    simp only [removeDupGo]
    by_cases h : img.url ∈ seen
    · have hne : ¬ (img.url = u) := fun he => hu (he ▸ h)
      simp only [if_pos h, List.find?_cons]
      rw [decide_eq_false hne]
      exact ih seen hu
    · simp only [if_neg h, List.find?_cons]
      by_cases he : img.url = u
      · rw [decide_eq_true he]
      · rw [decide_eq_false he]
        exact ih (img.url :: seen) (by
          intro hmem
          rcases List.mem_cons.mp hmem with hh | hh
          · exact he hh.symm
          · exact hu hh)

theorem removeDupGo_eq_self (seen : List String) (l : List ImageItem)
    (hd : (l.map (fun x => x.url)).Nodup) (hs : ∀ x ∈ l, x.url ∉ seen) :
    removeDupGo seen l = l := by
  induction l generalizing seen with
  | nil => simp [removeDupGo]
  | cons img rest ih =>
    simp only [List.map_cons, List.nodup_cons, List.mem_map] at hd
    obtain ⟨hni, hnr⟩ := hd
    simp only [removeDupGo, if_neg (hs img (List.mem_cons_self img rest))]
    congr 1
    refine ih (img.url :: seen) hnr ?_
    intro x hx hmem
    rcases List.mem_cons.mp hmem with hh | hh
    · exact hni ⟨x, hx, hh⟩
    · exact hs x (List.mem_cons_of_mem img hx) hh

/-- Claim C5: `remove_duplicates` keeps exactly the first occurrence of
each url: the output is an order-preserving sublist of the input, every
url appears at most once in the output, the first item with a given url
in the output is the first item with that url in the input, and an input
with a repeated url yields a strictly shorter output. -/
theorem c5_dedupe_first_occurrence (l : List ImageItem) :
    (removeDuplicates l).Sublist l ∧
      ((removeDuplicates l).map (fun x => x.url)).Nodup ∧
      (∀ u : String,
        (removeDuplicates l).find? (fun x => decide (x.url = u)) =
          l.find? (fun x => decide (x.url = u))) ∧
      (¬ (l.map (fun x => x.url)).Nodup →
        (removeDuplicates l).length < l.length) := by
  refine ⟨removeDupGo_sublist [] l, (removeDupGo_urls_nodup [] l).1,
    fun u => removeDupGo_find [] l u (List.not_mem_nil u), ?_⟩
  intro hrep
  rcases Nat.lt_or_ge (removeDuplicates l).length l.length with hlt | hge
  · exact hlt
  · exfalso
    have heq : removeDuplicates l = l :=
      (removeDupGo_sublist [] l).eq_of_length
        (Nat.le_antisymm ((removeDupGo_sublist [] l).length_le) hge)
    exact hrep (heq ▸ (removeDupGo_urls_nodup [] l).1)

/-- Witness for C5 at a concrete input with a repeated url. -/
theorem c5_witness :
    ¬ (([⟨"u1", "t", "a", "s", "su", "au", 1, 1⟩,
        ⟨"u1", "t2", "b", "s", "su", "au", 1, 1⟩] : List ImageItem).map
          (fun x => x.url)).Nodup ∧
      (removeDuplicates
          [⟨"u1", "t", "a", "s", "su", "au", 1, 1⟩,
           ⟨"u1", "t2", "b", "s", "su", "au", 1, 1⟩]).length <
        ([⟨"u1", "t", "a", "s", "su", "au", 1, 1⟩,
          ⟨"u1", "t2", "b", "s", "su", "au", 1, 1⟩] : List ImageItem).length :=
  ⟨by decide,
    (c5_dedupe_first_occurrence
      [⟨"u1", "t", "a", "s", "su", "au", 1, 1⟩,
       ⟨"u1", "t2", "b", "s", "su", "au", 1, 1⟩]).2.2.2 (by decide)⟩

/-- Claim C6: deduplication is idempotent. -/
theorem c6_dedupe_idempotent (l : List ImageItem) :
    removeDuplicates (removeDuplicates l) = removeDuplicates l :=
  removeDupGo_eq_self [] (removeDuplicates l)
    (removeDupGo_urls_nodup [] l).1 (fun x _ hx => List.not_mem_nil x.url hx)

/-! ### Validator (MultiSourceImageSearch.validate_image)

The `session.head` probe is modelled as a function from the media url to
an optional response: `none` models a raised request exception (caught by
the surrounding `try`, yielding `False`).  A present `content-length`
header is modelled by its parsed integer value. -/

structure ProbeResp where
  status : Nat
  contentType : String
  contentLength : Option Int
deriving DecidableEq

/-- Accepted media types: `any(img_type in content_type ...)` over the
lowercased `content-type` header. -/
def imageTypeOk (contentType : String) : Bool :=
  (["image/jpeg", "image/jpg", "image/png", "image/gif", "image/webp"]).any
    (fun t => pyIn t (pyLower contentType))

/-- The `content-length` anti-placeholder test: a present header below
5000 bytes rejects; an absent header skips the check. -/
def sizeTooSmall : Option Int → Bool
  | some n => decide (n < 5000)
  | none => false

/-- The relevance test: at least one token of `query.lower().split()` of
length above 2 occurs as a substring of the lowercased title. -/
def relevanceOk (query title : String) : Bool :=
  (pySplit (pyLower query)).any
    (fun w => decide (2 < w.length) && pyIn w (pyLower title))

/-- `MultiSourceImageSearch.validate_image`: probe the url, then check
status, content type, size and relevance in the source's order; any
exception (a `none` probe) yields `false`. -/
def validateImage (probe : String → Option ProbeResp)
    (image : ImageItem) (query : String) : Bool :=
  match probe image.url with
  | none => false
  | some r =>
    if r.status ≠ 200 then false
    else if !(imageTypeOk r.contentType) then false
    else if sizeTooSmall r.contentLength then false
    else if !(relevanceOk query image.title) then false
    else true

/-- Number of `session.head` calls made by `validate_image` for one item:
the probe is evaluated first, exactly once, before any check. -/
def validateImageProbeCalls (_image : ImageItem) : Nat := 1

/-- A probe that models every url raising (network down). -/
def probeNone : String → Option ProbeResp := fun _ => none

theorem relevanceOk_empty_title (query : String) :
    relevanceOk query "" = false := by
  rw [relevanceOk, List.any_eq_false]
  intro w _
  cases hw : w.data with
  | nil =>
    have : w.length = 0 := by
      simp [String.length, hw]
    simp [this]
  | cons c cs =>
    have : pyIn w (pyLower "") = false := by
      simp [pyIn, pyLower, hw, hasSub, startsWithCh]
    simp [this]

/-- Claim C7: if no query token of length above 2 occurs (after
lowercasing) in the item's title, the validator rejects the item, for
every possible probe behaviour; short tokens alone never suffice. -/
theorem c7_relevance_rejection (probe : String → Option ProbeResp)
    (image : ImageItem) (query : String)
    (hrel : ∀ w ∈ pySplit (pyLower query),
      2 < w.length → pyIn w (pyLower image.title) = false) :
    validateImage probe image query = false := by
  have hfalse : relevanceOk query image.title = false := by
    rw [relevanceOk, List.any_eq_false]
    intro w hw
    by_cases hlen : 2 < w.length
    · simp [hrel w hw hlen]
    · simp [hlen]
  rw [validateImage]
  cases probe image.url with
  | none => rfl
  | some r =>
    simp only [hfalse]
    split
    · rfl
    · split
      · rfl
      · split
        · rfl
        · simp

/-- Witness for C7: a query whose only tokens have length at most 2 never
validates, whatever the probe answers. -/
theorem c7_witness :
    (∀ w ∈ pySplit (pyLower "to a"),
      2 < w.length →
        pyIn w (pyLower "a nice picture of a cat") = false) ∧
      validateImage (fun _ => some ⟨200, "image/jpeg", some 90000⟩)
        ⟨"http://x/i.jpg", "t", "a nice picture of a cat", "s", "su",
          "au", 1, 1⟩ "to a" = false :=
  ⟨by decide,
    c7_relevance_rejection (fun _ => some ⟨200, "image/jpeg", some 90000⟩)
      ⟨"http://x/i.jpg", "t", "a nice picture of a cat", "s", "su",
        "au", 1, 1⟩ "to a" (by decide)⟩

/-- Counterexample for C8: the claim asserts that an item failing the
structural check (empty title or empty media reference) is rejected
without any probe call; in the source, `session.head(image['url'])` is
evaluated before any other check, so even an empty-title item incurs one
probe call. -/
theorem c8_counterexample :
    ¬ (∀ (image : ImageItem),
      image.title = "" ∨ image.url = "" → validateImageProbeCalls image = 0) := by
  intro h
  have := h ⟨"http://x/i.jpg", "t", "", "s", "su", "au", 1, 1⟩ (Or.inl rfl)
  simp [validateImageProbeCalls] at this

/-- Claim C8 (amended): the validator evaluates the probe first and
short-circuits on its failure; an empty-title item is rejected with the
same verdict for every probe result; but exactly one probe call is made
per item, even for items that fail the title check. -/
theorem c8_amended_probe_first (probe : String → Option ProbeResp)
    (image : ImageItem) (query : String) :
    (probe image.url = none → validateImage probe image query = false) ∧
      (image.title = "" → validateImage probe image query = false) ∧
      validateImageProbeCalls image = 1 := by
  refine ⟨?_, ?_, rfl⟩
  · intro hp
    rw [validateImage, hp]
  · intro ht
    have hfalse : relevanceOk query image.title = false := by
      rw [ht]; exact relevanceOk_empty_title query
    rw [validateImage]
    cases probe image.url with
    | none => rfl
    | some r =>
      simp only [hfalse]
      split
      · rfl
      · split
        · rfl
        · split
          · rfl
          · simp

/-- Witness for C8 (amended) at a concrete empty-title item. -/
theorem c8_amended_witness :
    validateImage (fun _ => some ⟨200, "image/jpeg", some 90000⟩)
        ⟨"http://x/i.jpg", "t", "", "s", "su", "au", 1, 1⟩ "cat" = false ∧
      validateImageProbeCalls
        ⟨"http://x/i.jpg", "t", "", "s", "su", "au", 1, 1⟩ = 1 :=
  ⟨(c8_amended_probe_first (fun _ => some ⟨200, "image/jpeg", some 90000⟩)
      ⟨"http://x/i.jpg", "t", "", "s", "su", "au", 1, 1⟩ "cat").2.1 rfl,
    (c8_amended_probe_first (fun _ => some ⟨200, "image/jpeg", some 90000⟩)
      ⟨"http://x/i.jpg", "t", "", "s", "su", "au", 1, 1⟩ "cat").2.2⟩

/-! ### Curated pool and aggregation (MultiSourceImageSearch) -/

/-- Keywords of the nature/animals curated category. -/
def natureWords : List String := ["butterfly", "bird", "flower", "nature", "animal"]

/-- Keywords of the technology curated category. -/
def technologyWords : List String := ["computer", "technology", "laptop", "phone", "tech"]

/-- Keywords of the landscape curated category. -/
def landscapeWords : List String := ["mountain", "landscape", "sunset", "ocean", "forest"]

/-- `any(word in query_lower for word in ws)`. -/
def anyWordIn (ws : List String) (s : String) : Bool := ws.any (fun w => pyIn w s)

/-- `MultiSourceImageSearch.get_curated_images`: one curated item for the
first matching category; an empty list when no category keyword occurs in
the lowercased query. -/
def getCuratedImages (query : String) : List ImageItem :=
  let ql := pyLower query
  if anyWordIn natureWords ql then
    [{ url := "https://images.unsplash.com/photo-1444927714506-8492d94b5ba0?w=800",
       thumbnail := "https://images.unsplash.com/photo-1444927714506-8492d94b5ba0?w=400",
       title := pyTitle query ++ " - Nature Photography",
       source := "Curated Collection",
       sourceUrl := "https://unsplash.com/photos/butterfly",
       author := "Nature Photographer", width := 800, height := 600 }]
  else if anyWordIn technologyWords ql then
    [{ url := "https://images.unsplash.com/photo-1518709268805-4e9042af2176?w=800",
       thumbnail := "https://images.unsplash.com/photo-1518709268805-4e9042af2176?w=400",
       title := pyTitle query ++ " - Technology",
       source := "Curated Collection",
       sourceUrl := "https://unsplash.com/photos/technology",
       author := "Tech Photographer", width := 800, height := 600 }]
  else if anyWordIn landscapeWords ql then
    [{ url := "https://images.unsplash.com/photo-1506905925346-21bda4d32df4?w=800",
       thumbnail := "https://images.unsplash.com/photo-1506905925346-21bda4d32df4?w=400",
       title := pyTitle query ++ " - Landscape",
       source := "Curated Collection",
       sourceUrl := "https://unsplash.com/photos/landscape",
       author := "Landscape Photographer", width := 800, height := 600 }]
  else []

/-- The validation loop of `search_images`: append each accepted item and
break once `max_results` accepted items have been collected (the length
test runs after each append). -/
def validLoop (probe : String → Option ProbeResp) (query : String)
    (maxResults : Nat) (acc : List ImageItem) : List ImageItem → List ImageItem
  | [] => acc
  | img :: rest =>
    if validateImage probe img query then
      if (acc ++ [img]).length ≥ maxResults then acc ++ [img]
      else validLoop probe query maxResults (acc ++ [img]) rest
    else validLoop probe query maxResults acc rest

/-- The curated-fallback loop of `search_images`: before each append,
break if `max_results` items have been collected. -/
def fallbackLoop (maxResults : Nat) (acc : List ImageItem) :
    List ImageItem → List ImageItem
  | [] => acc
  | img :: rest =>
    if acc.length ≥ maxResults then acc
    else fallbackLoop maxResults (acc ++ [img]) rest

/-- `MultiSourceImageSearch.search_images`: concatenate the source
results (skipping falsy empties), deduplicate, validate up to
`max_results`, and append curated fallbacks when fewer than 5 validated
items remain. -/
def searchImages (probe : String → Option ProbeResp)
    (sourceResults : List (List ImageItem)) (query : String)
    (maxResults : Nat) : List ImageItem :=
  let allImages :=
    sourceResults.foldl (fun acc s => if s.isEmpty then acc else acc ++ s) []
  let uniqueImages := removeDuplicates allImages
  let validated := validLoop probe query maxResults [] uniqueImages
  if validated.length < 5 then
    fallbackLoop maxResults validated (getCuratedImages query)
  else validated

theorem fallbackLoop_length_mono (maxResults : Nat) (l : List ImageItem)
    (acc : List ImageItem) :
    acc.length ≤ (fallbackLoop maxResults acc l).length := by
  induction l generalizing acc with
  | nil => simp [fallbackLoop]
  | cons img rest ih =>
    simp only [fallbackLoop]
    by_cases h : acc.length ≥ maxResults
    · simp [h]
    · simp only [if_neg h]
      calc acc.length ≤ (acc ++ [img]).length := by simp
        _ ≤ _ := ih (acc ++ [img])

/-- Counterexample for C1: with every external source empty and the query
"zzz" (which matches no curated category), `search_images` returns the
empty list even though the curated tables themselves are non-empty. -/
theorem c1_counterexample :
    searchImages probeNone [[], [], [], [], []] "zzz" 20 = [] := by decide

/-- Claim C1 (amended): when every external source returns no items, the
result is non-empty provided `max_results` is positive and the query
matches a curated category (so that `get_curated_images` is non-empty);
for queries outside every curated category the result is empty. -/
theorem c1_amended_curated_nonempty (probe : String → Option ProbeResp)
    (sourceResults : List (List ImageItem)) (query : String) (maxResults : Nat)
    (hsrc : ∀ s ∈ sourceResults, s = []) (hmax : 0 < maxResults)
    (hcur : getCuratedImages query ≠ []) :
    searchImages probe sourceResults query maxResults ≠ [] := by
  have hall : sourceResults.foldl
      (fun acc s => if s.isEmpty then acc else acc ++ s) ([] : List ImageItem)
      = [] := by
    induction sourceResults with
    | nil => rfl
    | cons s rest ih =>
      rw [List.foldl_cons, if_pos (by simp [hsrc s (List.mem_cons_self s rest)]),
        ih (fun t ht => hsrc t (List.mem_cons_of_mem s ht))]
  rw [searchImages]
  simp only [hall]
  have hvl : validLoop probe query maxResults [] (removeDuplicates []) = [] := rfl
  rw [hvl]
  simp only [List.length_nil, if_pos (by norm_num : (0 : Nat) < 5)]
  cases hc : getCuratedImages query with
  | nil => exact absurd hc hcur
  | cons c rest =>
    rw [fallbackLoop,
      if_neg (by simp only [List.length_nil]; omega :
        ¬ (List.length ([] : List ImageItem) ≥ maxResults))]
    intro hcontra
    have := fallbackLoop_length_mono maxResults rest ([] ++ [c])
    rw [hcontra] at this
    simp at this

/-- Witness for C1 (amended): the query "butterfly" with all sources
empty yields a non-empty result. -/
theorem c1_amended_witness :
    (∀ s ∈ ([[], [], [], [], []] : List (List ImageItem)), s = []) ∧
      (0 : Nat) < 20 ∧ getCuratedImages "butterfly" ≠ [] ∧
      searchImages probeNone [[], [], [], [], []] "butterfly" 20 ≠ [] :=
  ⟨by decide, by decide, by decide,
    c1_amended_curated_nonempty probeNone [[], [], [], [], []] "butterfly" 20
      (by decide) (by decide) (by decide)⟩

/-! ### Facts domain (extinct_facts/wikidata_service.py, views.py) -/

structure Fact where
  title : String
  description : String
  imageSuggestion : String
deriving DecidableEq

/-- `WikidataService._get_programming_language_facts`. -/
def programmingLanguageFacts : List Fact :=
  [⟨"💻 Python Programming Language",
    "Python was created by Guido van Rossum and first released in 1991. Named after the British comedy group Monty Python, it emphasizes code readability and simplicity. Python has become one of the most popular programming languages, especially in data science, AI, and web development. Its philosophy includes 'The Zen of Python' with principles like 'Beautiful is better than ugly' and 'Simple is better than complex'.",
    "Python programming language logo code"⟩,
   ⟨"☕ Java Programming Language",
    "Java was developed by James Gosling at Sun Microsystems and released in 1995. Originally called Oak, it was designed with the principle 'write once, run anywhere' (WORA). Java revolutionized programming with its platform independence through the Java Virtual Machine. It remains one of the most widely used programming languages in enterprise applications and Android development.",
    "Java programming language coffee cup logo"⟩,
   ⟨"🌐 JavaScript",
    "JavaScript was created by Brendan Eich in just 10 days in 1995 while working at Netscape. Despite its name, it has no relation to Java. Originally designed to make web pages interactive, JavaScript has evolved to become a full-stack programming language. It's now used for web development, mobile apps, desktop applications, and even server-side programming with Node.js.",
    "JavaScript code on computer screen"⟩,
   ⟨"🔧 C Programming Language",
    "C was developed by Dennis Ritchie at Bell Labs between 1969 and 1973. It's considered the foundation of modern programming languages, with many languages like C++, Java, and Python borrowing concepts from C. The famous book 'The C Programming Language' by Kernighan and Ritchie is often called the 'K&R' and is considered the bible of C programming. C is still widely used in system programming and embedded systems.",
    "C programming language vintage computer terminal"⟩,
   ⟨"🦀 Rust Programming Language",
    "Rust was originally developed by Mozilla Research, with the first stable release in 2015. It focuses on safety, speed, and concurrency without a garbage collector. Rust prevents common programming errors like null pointer dereferences and buffer overflows at compile time. It's increasingly used in system programming, web assembly, and blockchain development. The language mascot is Ferris the Crab.",
    "Rust programming language crab mascot"⟩]

/-- `WikidataService._get_computer_scientist_facts`. -/
def computerScientistFacts : List Fact :=
  [⟨"🧠 Alan Turing",
    "Alan Turing (1912-1954) is considered the father of computer science and artificial intelligence. He created the Turing Test to determine if a machine can exhibit intelligent behavior equivalent to a human. During WWII, he helped break the Enigma code, significantly shortening the war. The Turing Award, often called the 'Nobel Prize of Computing,' is named in his honor. His work laid the theoretical foundation for modern computers.",
    "Alan Turing portrait with Enigma machine"⟩,
   ⟨"👩‍💻 Ada Lovelace",
    "Ada Lovelace (1815-1852) is often considered the world's first computer programmer. She wrote the first algorithm intended to be processed by Charles Babbage's Analytical Engine in 1843. Her notes on the engine include what is recognized as the first computer program. She envisioned that computers could go beyond pure calculation to create music and art. The Ada programming language is named in her honor.",
    "Ada Lovelace portrait with mathematical equations"⟩,
   ⟨"🖥️ Steve Jobs",
    "Steve Jobs (1955-2011) co-founded Apple Inc. and revolutionized personal computing, mobile phones, and digital media. He introduced the Apple II, Macintosh, iPod, iPhone, and iPad, each transforming their respective industries. Known for his perfectionism and attention to design, Jobs believed in making technology accessible and beautiful. His famous Stanford commencement speech included the phrase 'Stay hungry, stay foolish.'",
    "Steve Jobs presenting iPhone on stage"⟩,
   ⟨"🌐 Tim Berners-Lee",
    "Tim Berners-Lee invented the World Wide Web in 1989 while working at CERN. He created the first web browser, web server, and website. Remarkably, he chose not to patent his invention, believing the web should be free for everyone. He founded the World Wide Web Consortium (W3C) to oversee the web's development. He continues to advocate for an open, decentralized web and digital rights.",
    "Tim Berners-Lee with early web browser"⟩,
   ⟨"🔍 Larry Page & Sergey Brin",
    "Larry Page and Sergey Brin co-founded Google in 1998 while PhD students at Stanford University. They developed the PageRank algorithm that became the foundation of Google's search engine. Their innovation was ranking web pages based on their relevance and authority rather than just keyword matching. Google started in a garage and grew to become one of the world's most valuable companies, revolutionizing how we access information.",
    "Google founders Larry Page Sergey Brin early office"⟩]

/-- `WikidataService._get_ai_technology_facts`. -/
def aiTechnologyFacts : List Fact :=
  [⟨"🤖 ChatGPT",
    "ChatGPT was released by OpenAI in November 2022 and became the fastest-growing consumer application in history, reaching 100 million users in just 2 months. It's based on the GPT (Generative Pre-trained Transformer) architecture and can engage in human-like conversations, write code, create content, and solve problems. The technology represents a breakthrough in natural language processing and has sparked widespread discussion about AI's role in society.",
    "ChatGPT interface conversation artificial intelligence"⟩,
   ⟨"🧠 Neural Networks",
    "Artificial neural networks are inspired by biological neural networks in animal brains. The concept was first introduced in 1943 by Warren McCulloch and Walter Pitts. Modern deep learning neural networks can have millions or billions of parameters and are used in image recognition, natural language processing, and game playing. The 2024 Nobel Prize in Physics was awarded to Geoffrey Hinton and John Hopfield for their foundational work on neural networks.",
    "Neural network diagram brain connections"⟩,
   ⟨"🎯 Machine Learning",
    "Machine Learning is a subset of AI that enables computers to learn and improve from experience without being explicitly programmed. The term was coined by Arthur Samuel in 1959. ML algorithms can identify patterns in data and make predictions or decisions. Applications include recommendation systems (Netflix, Spotify), fraud detection, medical diagnosis, and autonomous vehicles. The field has exploded with the availability of big data and powerful computing.",
    "Machine learning algorithms data visualization"⟩,
   ⟨"👁️ Computer Vision",
    "Computer Vision enables machines to interpret and understand visual information from the world. Early work began in the 1960s, but modern computer vision uses deep learning to achieve human-level performance in many tasks. Applications include facial recognition, medical imaging, autonomous vehicles, and augmented reality. The ImageNet competition, started in 2010, significantly advanced the field by providing large datasets for training.",
    "Computer vision image recognition technology"⟩,
   ⟨"🗣️ Natural Language Processing",
    "Natural Language Processing (NLP) combines computational linguistics with machine learning to help computers understand human language. Early NLP systems were rule-based, but modern systems use statistical and neural approaches. Breakthrough applications include machine translation (Google Translate), voice assistants (Siri, Alexa), and text generation. The Transformer architecture, introduced in 2017, revolutionized NLP and led to models like GPT and BERT.",
    "Natural language processing text analysis"⟩]

/-- `WikidataService._get_software_company_facts`. -/
def softwareCompanyFacts : List Fact :=
  [⟨"🏢 Microsoft Corporation",
    "Microsoft was founded by Bill Gates and Paul Allen in 1975, starting in a garage in Albuquerque, New Mexico. The company revolutionized personal computing with MS-DOS and Windows operating systems. Microsoft Office became the standard for productivity software. Under Satya Nadella's leadership since 2014, Microsoft has transformed into a cloud-first company with Azure becoming a major competitor to Amazon Web Services.",
    "Microsoft headquarters campus Redmond Washington"⟩,
   ⟨"🍎 Apple Inc.",
    "Apple was founded in 1976 by Steve Jobs, Steve Wozniak, and Ronald Wayne in Jobs' parents' garage. The company introduced the Apple II, one of the first successful personal computers. After Jobs returned in 1997, Apple launched revolutionary products: iMac, iPod, iPhone, and iPad. Apple became the world's most valuable company and changed multiple industries including computers, music, phones, and tablets.",
    "Apple Park headquarters Cupertino California"⟩,
   ⟨"🔍 Google (Alphabet)",
    "Google was founded in 1998 by Larry Page and Sergey Brin while they were PhD students at Stanford. Starting as a search engine, Google now dominates web search with over 90% market share. The company expanded into email (Gmail), mobile operating systems (Android), cloud computing, and artificial intelligence. Google's parent company Alphabet was created in 2015 to organize its various businesses.",
    "Google headquarters Mountain View California colorful"⟩]

/-- `WikidataService._get_computing_milestone_facts`. -/
def computingMilestoneFacts : List Fact :=
  [⟨"💾 The First Computer Bug",
    "The term 'computer bug' originated in 1947 when Admiral Grace Hopper found an actual moth trapped in a Harvard Mark II computer, causing it to malfunction. She taped the moth in her logbook with the note 'First actual case of bug being found.' This incident popularized the terms 'bug' and 'debugging' in computing. Grace Hopper was also instrumental in developing the first compiler and the COBOL programming language.",
    "Grace Hopper computer bug moth logbook"⟩,
   ⟨"🌐 The First Website",
    "The world's first website was created by Tim Berners-Lee in 1991 at CERN. The site, info.cern.ch, explained what the World Wide Web was and how to use it. It contained information about hypertext, technical details, and how to create web pages. The site is still online today and represents the humble beginning of the web that now contains billions of pages.",
    "First website CERN Tim Berners-Lee 1991"⟩,
   ⟨"📧 The First Email",
    "The first email was sent by Ray Tomlinson in 1971 between two computers sitting side by side. He chose the @ symbol to separate the user name from the computer name, a convention still used today. The message was a test and likely said something like 'QWERTYUIOP.' This simple innovation revolutionized communication and laid the foundation for modern digital messaging.",
    "Ray Tomlinson first email 1971 computer terminal"⟩]

/-- `all_facts` in `get_fallback_it_ai_fact`: the concatenation of the
five category tables. -/
def allITAIFacts : List Fact :=
  programmingLanguageFacts ++ computerScientistFacts ++ aiTechnologyFacts ++
    softwareCompanyFacts ++ computingMilestoneFacts

/-- Totalizing default (never reached: the pool is non-empty). -/
def defaultFact : Fact := ⟨"", "", ""⟩

/-- `random.choice(all_facts)` with an injected draw: the draw index is
reduced modulo the pool size. -/
def factAt (n : Nat) : Fact :=
  (allITAIFacts.get? (n % allITAIFacts.length)).getD defaultFact

/-- `WikidataService._add_to_recent`: append a non-empty title, then pop
the oldest entry once the list exceeds `max_recent = 5`. -/
def addToRecent (recent : List String) (title : String) : List String :=
  if title = "" then recent
  else
    let r := recent ++ [title]
    if r.length > 5 then r.drop 1 else r

/-- The draw loop of `get_fallback_it_ai_fact`: up to `fuel` draws; a
draw whose title is not in `recent` is recorded and returned; when the
fuel runs out, one more independent draw is returned with no recording.
`attempt` indexes the injected draw stream. -/
def getFallbackITAIFactGo (draws : Nat → Nat) (recent : List String)
    (attempt : Nat) : Nat → Fact × List String
  | 0 => (factAt (draws attempt), recent)
  | fuel + 1 =>
    if (factAt (draws attempt)).title ∈ recent then
      getFallbackITAIFactGo draws recent (attempt + 1) fuel
    else (factAt (draws attempt),
      addToRecent recent (factAt (draws attempt)).title)

/-- `WikidataService.get_fallback_it_ai_fact` with the instance's
`recent_facts` list passed explicitly and the random draws injected;
returns the fact together with the updated `recent_facts`. -/
def getFallbackITAIFact (draws : Nat → Nat) (recent : List String) :
    Fact × List String :=
  getFallbackITAIFactGo draws recent 0 10

/-- The session-window record step of the views: append the served title,
then keep only the last `k` entries when the list exceeds `k`
(`recent[-k:]`); `k = 5` for facts, `k = 10` for news. -/
def recordTitleK (k : Nat) (recent : List String) (title : String) :
    List String :=
  if (recent ++ [title]).length > k then
    (recent ++ [title]).drop ((recent ++ [title]).length - k)
  else recent ++ [title]

/-- The attempt loop of the `get_extinct_fact` view: each attempt draws
one fact from the facts service (modelled as the stream `facts`); a fact
whose title is not in the session window, or the final attempt, is
recorded into the window (capacity 5) and returned. -/
def getExtinctFactGo (facts : Nat → Fact) (maxAttempts : Nat)
    (recent : List String) (attempt : Nat) : Nat → Fact × List String
  | 0 => (facts attempt, recent)
  | fuel + 1 =>
    if (facts attempt).title ∉ recent ∨ attempt = maxAttempts - 1 then
      (facts attempt, recordTitleK 5 recent (facts attempt).title)
    else getExtinctFactGo facts maxAttempts recent (attempt + 1) fuel

/-- The `get_extinct_fact` view (extinct_facts/views.py): 10 attempts
against the session's `recent_facts` window. -/
def getExtinctFactView (facts : Nat → Fact) (recent : List String) :
    Fact × List String :=
  getExtinctFactGo facts 10 recent 0 10

theorem factAt_mem (n : Nat) : factAt n ∈ allITAIFacts := by
  have hlen : allITAIFacts.length = 21 := by decide
  have hlt : n % allITAIFacts.length < allITAIFacts.length :=
    Nat.mod_lt n (by rw [hlen]; omega)
  rw [factAt, List.get?_eq_get hlt]
  exact List.get_mem allITAIFacts (n % allITAIFacts.length) hlt

/-! ### News domain (extinct_facts/views.py) -/

structure NewsItem where
  title : String
  description : String
  url : String
deriving DecidableEq

/-- Totalizing default (never reached: the pool is non-empty). -/
def defaultNews : NewsItem := ⟨"", "", ""⟩

/-- The `fallback_news` table of `get_fallback_news`. -/
def fallbackNewsPool : List NewsItem :=
  [⟨"🚀 OpenAI Releases GPT-4 Turbo with Vision",
    "OpenAI has announced GPT-4 Turbo, featuring improved performance, lower costs, and the ability to process images alongside text. The new model offers a 128K context window and represents a significant advancement in multimodal AI capabilities.",
    "https://openai.com/blog/gpt-4-turbo"⟩,
   ⟨"🤖 DeepSeek Releases Open-Source AI Models",
    "DeepSeek has released a series of open-source AI models that rival GPT-4 performance while being freely available. Their DeepSeek-V2 model shows impressive capabilities in coding, mathematics, and reasoning tasks.",
    "https://github.com/deepseek-ai"⟩,
   ⟨"⚡ Python 3.12 Introduces New Features",
    "Python 3.12 brings significant performance improvements, better error messages, and new syntax features. The release includes enhanced f-string capabilities, improved type hints, and up to 11% faster execution.",
    "https://docs.python.org/3.12/whatsnew/3.12.html"⟩,
   ⟨"🔧 JavaScript ES2024 Features Released",
    "The latest ECMAScript 2024 specification introduces new array methods, improved regex support, and better async/await handling. Notable additions include Array.prototype.toSorted() and enhanced temporal API support.",
    "https://tc39.es/ecma262/"⟩,
   ⟨"🌟 GitHub Copilot Gets Major Updates",
    "GitHub Copilot now features improved code suggestions, better context awareness, and support for more programming languages. The AI assistant can now understand larger codebases and provide more accurate suggestions.",
    "https://github.blog/changelog/label/copilot/"⟩,
   ⟨"🏛️ H1B Visa Processing Delays Impact Tech Hiring",
    "Significant delays in H1B visa processing are affecting tech company hiring plans for 2024. Companies are reporting 6-12 month delays in visa approvals, forcing them to reconsider international hiring strategies and remote work arrangements.",
    "https://www.uscis.gov/working-in-the-united-states/temporary-workers/h-1b-specialty-occupations"⟩,
   ⟨"💼 Remote Work Tax Laws Create Compliance Challenges",
    "New multi-state tax regulations are creating compliance challenges for IT professionals working remotely. Companies are implementing new payroll systems to handle complex tax obligations across different jurisdictions.",
    "https://www.irs.gov/newsroom/faqs-for-individuals-working-remotely"⟩,
   ⟨"⚖️ EU AI Act Implementation Affects Global Tech Companies",
    "The European Union's AI Act implementation is forcing global tech companies to redesign their AI systems for compliance. The regulations include strict requirements for high-risk AI applications and transparency obligations.",
    "https://digital-strategy.ec.europa.eu/en/policies/regulatory-framework-ai"⟩,
   ⟨"🔒 Cybersecurity Regulations Tighten for Financial Tech",
    "New cybersecurity regulations specifically targeting fintech companies require enhanced security measures and incident reporting. IT departments are implementing new security frameworks to meet compliance requirements.",
    "https://www.cisa.gov/cybersecurity"⟩,
   ⟨"🌐 Data Privacy Laws Expand Globally",
    "New data privacy regulations similar to GDPR are being implemented worldwide, affecting how tech companies handle user data. IT teams are updating privacy policies, data handling procedures, and user consent mechanisms.",
    "https://gdpr.eu/what-is-gdpr/"⟩]

/-- `fetch_tech_news`: the four fetchers are modelled by their results
(`none` for a failed or filtered-out fetch); results that are present and
not recently shown are collected in order, and one is drawn at random
(injected index `draw`). -/
def fetchTechNews (sources : List (Option NewsItem)) (draw : Nat)
    (recentNews : List String) : Option NewsItem :=
  let valid := (sources.filterMap id).filter
    (fun n => decide (n.title ∉ recentNews))
  if valid.isEmpty then none
  else valid.get? (draw % valid.length)

/-- `get_fallback_news`: filter the curated pool against `recent`
(the list passed by the caller); when all pool titles are recent, reset
the session window to empty and use the whole pool; pick at the injected
`draw` index; then record the pick into the (re-read) session window,
trimmed to the last 10.  Returns the pick and the final session window. -/
def getFallbackNews (recent : List String) (sessionRecent : List String)
    (draw : Nat) : NewsItem × List String :=
  let available := fallbackNewsPool.filter (fun n => decide (n.title ∉ recent))
  let avail2 := if available.isEmpty then fallbackNewsPool else available
  let session2 := if available.isEmpty then ([] : List String) else sessionRecent
  let selected := (avail2.get? (draw % avail2.length)).getD defaultNews
  (selected, recordTitleK 10 session2 selected.title)

theorem getD_mod_mem {α : Type} (l : List α) (d : α) (n : Nat) (hl : l ≠ []) :
    (l.get? (n % l.length)).getD d ∈ l := by
  have hpos : 0 < l.length := List.length_pos.mpr hl
  have hlt : n % l.length < l.length := Nat.mod_lt n hpos
  rw [List.get?_eq_get hlt]
  exact List.get_mem l (n % l.length) hlt

theorem getFallbackITAIFactGo_collide (draws : Nat → Nat)
    (recent : List String) :
    ∀ (fuel attempt : Nat),
      (∀ a, attempt ≤ a → a < attempt + fuel →
        (factAt (draws a)).title ∈ recent) →
      getFallbackITAIFactGo draws recent attempt fuel =
        (factAt (draws (attempt + fuel)), recent) := by
  intro fuel
  induction fuel with
  | zero => intro attempt _; simp [getFallbackITAIFactGo]
  | succ f ih =>
    intro attempt h
    have hm : (factAt (draws attempt)).title ∈ recent :=
      h attempt le_rfl (by omega)
    rw [getFallbackITAIFactGo, if_pos hm,
      ih (attempt + 1) (fun a ha1 ha2 => h a (by omega) (by omega))]
    have harith : attempt + 1 + f = attempt + (f + 1) := by omega
    rw [harith]

theorem getExtinctFactGo_collide (facts : Nat → Fact) (recent : List String) :
    ∀ (fuel attempt : Nat), attempt + fuel = 10 → 0 < fuel →
      (∀ a, a < 10 → (facts a).title ∈ recent) →
      getExtinctFactGo facts 10 recent attempt fuel =
        (facts 9, recordTitleK 5 recent (facts 9).title) := by
  intro fuel
  induction fuel with
  | zero => intro attempt _ hpos _; omega
  | succ f ih =>
    intro attempt hsum _ hcol
    by_cases hlast : attempt = 9
    · have hf : f = 0 := by omega
      subst hf
      subst hlast
      rw [getExtinctFactGo, if_pos (Or.inr rfl)]
    · have hmem := hcol attempt (by omega)
      rw [getExtinctFactGo,
        if_neg (by
          rw [not_or]
          exact ⟨not_not_intro hmem, by omega⟩)]
      exact ih (attempt + 1) (by omega) (by omega) hcol

/-- Counterexample for C2: in the facts domain, a window already
containing every curated title is not reset by
`get_fallback_it_ai_fact`; the 21-title window survives the call, so the
post-call window is not the single-title window the claim requires. -/
theorem c2_counterexample :
    ¬ (∀ (draws : Nat → Nat) (recent : List String),
      (∀ f ∈ allITAIFacts, f.title ∈ recent) →
      (getFallbackITAIFact draws recent).2 =
        [(getFallbackITAIFact draws recent).1.title]) := by
  intro h
  have h1 := h (fun _ => 0) (allITAIFacts.map (fun f => f.title)) (by decide)
  have h2 : (getFallbackITAIFact (fun _ => 0)
      (allITAIFacts.map (fun f => f.title))).2.length = 21 := by decide
  rw [h1] at h2
  simp at h2

/-- Claim C2 (amended): on total collision the news fallback
(`get_fallback_news`) resets the session window before recording and
returns a valid pool item, so the final window is exactly the one served
title; the facts fallback (`get_fallback_it_ai_fact`) also returns a
valid pool item but leaves the window unchanged — no reset and no
recording happen there. -/
theorem c2_amended_total_collision :
    (∀ (recent sessionRecent : List String) (draw : Nat),
      (∀ n ∈ fallbackNewsPool, n.title ∈ recent) →
      (getFallbackNews recent sessionRecent draw).1 ∈ fallbackNewsPool ∧
        (getFallbackNews recent sessionRecent draw).2 =
          [(getFallbackNews recent sessionRecent draw).1.title]) ∧
    (∀ (draws : Nat → Nat) (recent : List String),
      (∀ f ∈ allITAIFacts, f.title ∈ recent) →
      (getFallbackITAIFact draws recent).1 ∈ allITAIFacts ∧
        (getFallbackITAIFact draws recent).2 = recent) := by
  constructor
  · intro recent sessionRecent draw h
    have hav : fallbackNewsPool.filter
        (fun n => decide (n.title ∉ recent)) = [] :=
      List.filter_eq_nil_iff.mpr (fun n hn => by simp [h n hn])
    simp only [getFallbackNews, hav, List.isEmpty_nil, if_pos]
    constructor
    · exact getD_mod_mem fallbackNewsPool defaultNews draw (by decide)
    · rw [recordTitleK, if_neg (by simp)]
      simp
  · intro draws recent h
    have := getFallbackITAIFactGo_collide draws recent 10 0
      (fun a _ _ => h (factAt (draws a)) (factAt_mem (draws a)))
    rw [getFallbackITAIFact, this]
    exact ⟨factAt_mem (draws 10), rfl⟩

/-- Witness for C2 (amended) with both windows saturated. -/
theorem c2_witness :
    (getFallbackNews (fallbackNewsPool.map (fun n => n.title))
        (fallbackNewsPool.map (fun n => n.title)) 0).2 =
      [(getFallbackNews (fallbackNewsPool.map (fun n => n.title))
        (fallbackNewsPool.map (fun n => n.title)) 0).1.title] ∧
      (getFallbackITAIFact (fun _ => 0)
        (allITAIFacts.map (fun f => f.title))).2 =
        allITAIFacts.map (fun f => f.title) :=
  ⟨((c2_amended_total_collision.1 (fallbackNewsPool.map (fun n => n.title))
      (fallbackNewsPool.map (fun n => n.title)) 0) (by decide)).2,
    ((c2_amended_total_collision.2 (fun _ => 0)
      (allITAIFacts.map (fun f => f.title))) (by decide)).2⟩

/-- Draw stream for the C3 counterexample: every one of the ten loop
draws picks fact 0, the post-loop extra draw picks fact 1. -/
def c3Draws (a : Nat) : Nat := if a < 10 then 0 else 1

/-- Counterexample for C3: in `get_fallback_it_ai_fact`, when all 10
draws collide with the window the function does not return the
last-drawn candidate with its key recorded: it makes a fresh independent
draw and records nothing. -/
theorem c3_counterexample :
    ¬ (∀ (draws : Nat → Nat) (recent : List String),
      (∀ a, a < 10 → (factAt (draws a)).title ∈ recent) →
      (getFallbackITAIFact draws recent).1 = factAt (draws 9) ∧
        (factAt (draws 9)).title ∈ (getFallbackITAIFact draws recent).2) := by
  intro h
  have hd : ∀ a, a < 10 → (factAt (c3Draws a)).title ∈ [(factAt 0).title] := by
    intro a ha
    rw [c3Draws, if_pos ha]
    exact List.mem_singleton.mpr rfl
  have h1 := (h c3Draws [(factAt 0).title] hd).1
  revert h1
  decide

/-- Claim C3 (amended): at the view level (`get_extinct_fact`), when all
10 draws collide with the session window the 10th (last-drawn) fact is
returned and its title is recorded; in the curated-fact service
(`get_fallback_it_ai_fact`), when all 10 draws collide a fresh
independent draw is returned and the window is left unchanged. -/
theorem c3_amended_last_draw :
    (∀ (facts : Nat → Fact) (recent : List String),
      (∀ a, a < 10 → (facts a).title ∈ recent) →
      getExtinctFactView facts recent =
        (facts 9, recordTitleK 5 recent (facts 9).title)) ∧
    (∀ (draws : Nat → Nat) (recent : List String),
      (∀ a, a < 10 → (factAt (draws a)).title ∈ recent) →
      getFallbackITAIFact draws recent = (factAt (draws 10), recent)) := by
  constructor
  · intro facts recent h
    rw [getExtinctFactView]
    exact getExtinctFactGo_collide facts recent 10 0 (by omega) (by omega) h
  · intro draws recent h
    rw [getFallbackITAIFact]
    exact getFallbackITAIFactGo_collide draws recent 10 0
      (fun a _ ha => h a (by omega))

/-- Witness for C3 (amended) with a constant colliding draw stream. -/
theorem c3_witness :
    getExtinctFactView (fun _ => factAt 0) [(factAt 0).title] =
      (factAt 0, recordTitleK 5 [(factAt 0).title] (factAt 0).title) ∧
      getFallbackITAIFact (fun _ => 0) [(factAt 0).title] =
        (factAt 0, [(factAt 0).title]) :=
  ⟨c3_amended_last_draw.1 (fun _ => factAt 0) [(factAt 0).title]
      (fun _ _ => List.mem_singleton.mpr rfl),
    c3_amended_last_draw.2 (fun _ => 0) [(factAt 0).title]
      (fun _ _ => List.mem_singleton.mpr rfl)⟩

theorem recordTitleK_length_le (k : Nat) (recent : List String) (t : String) :
    (recordTitleK k recent t).length ≤ k ∨
      (recordTitleK k recent t).length = recent.length + 1 := by
  rw [recordTitleK]
  by_cases h : (recent ++ [t]).length > k
  · left
    rw [if_pos h, List.length_drop]
    omega
  · right
    rw [if_neg h]
    simp

theorem foldl_recordTitleK_length (k : Nat) (keys : List String)
    (init : List String) (hinit : init.length ≤ k) :
    (keys.foldl (recordTitleK k) init).length ≤ k := by
  induction keys generalizing init with
  | nil => simpa using hinit
  | cons key rest ih =>
    rw [List.foldl_cons]
    refine ih (recordTitleK k init key) ?_
    rcases recordTitleK_length_le k init key with h | h
    · exact h
    · rw [recordTitleK] at h ⊢
      by_cases hc : (init ++ [key]).length > k
      · rw [if_pos hc, List.length_drop]; omega
      · rw [if_neg hc]; simp at hc ⊢; omega

/-- Claim C4: after any sequence of records starting from the empty
window, the facts window holds at most 5 keys and the news window at
most 10; each record appends the new key and evicts the oldest beyond
capacity, so after K+1 distinct records the oldest key is gone. -/
theorem c4_window_capacity :
    (∀ keys : List String, (keys.foldl (recordTitleK 5) []).length ≤ 5) ∧
      (∀ keys : List String, (keys.foldl (recordTitleK 10) []).length ≤ 10) ∧
      (∀ a b c d e f : String, ([a, b, c, d, e, f] : List String).Nodup →
        [a, b, c, d, e, f].foldl (recordTitleK 5) [] = [b, c, d, e, f] ∧
          a ∉ ([b, c, d, e, f] : List String)) ∧
      (∀ t1 t2 t3 t4 t5 t6 t7 t8 t9 t10 t11 : String,
        ([t1, t2, t3, t4, t5, t6, t7, t8, t9, t10, t11] : List String).Nodup →
        [t1, t2, t3, t4, t5, t6, t7, t8, t9, t10, t11].foldl
            (recordTitleK 10) [] =
          [t2, t3, t4, t5, t6, t7, t8, t9, t10, t11] ∧
          t1 ∉ ([t2, t3, t4, t5, t6, t7, t8, t9, t10, t11] : List String)) := by
  refine ⟨fun keys => foldl_recordTitleK_length 5 keys [] (by simp),
    fun keys => foldl_recordTitleK_length 10 keys [] (by simp), ?_, ?_⟩
  · intro a b c d e f h
    exact ⟨by simp [recordTitleK], (List.nodup_cons.mp h).1⟩
  · intro t1 t2 t3 t4 t5 t6 t7 t8 t9 t10 t11 h
    exact ⟨by simp [recordTitleK], (List.nodup_cons.mp h).1⟩

/-- Witness for C4 at six (resp. eleven) concrete distinct keys. -/
theorem c4_witness :
    (["a1", "a2", "a3", "a4", "a5", "a6"].foldl (recordTitleK 5) [] =
        ["a2", "a3", "a4", "a5", "a6"] ∧
      "a1" ∉ (["a2", "a3", "a4", "a5", "a6"] : List String)) ∧
      (["b1", "b2", "b3", "b4", "b5", "b6", "b7", "b8", "b9", "b10",
          "b11"].foldl (recordTitleK 10) [] =
        ["b2", "b3", "b4", "b5", "b6", "b7", "b8", "b9", "b10", "b11"] ∧
        "b1" ∉ (["b2", "b3", "b4", "b5", "b6", "b7", "b8", "b9", "b10",
          "b11"] : List String)) :=
  ⟨c4_window_capacity.2.2.1 "a1" "a2" "a3" "a4" "a5" "a6" (by decide),
    c4_window_capacity.2.2.2 "b1" "b2" "b3" "b4" "b5" "b6" "b7" "b8" "b9"
      "b10" "b11" (by decide)⟩

/-! ### search-images views (image_search/views_new.py, views_backup.py)

The request body is modelled after JSON parsing: `none` is a body that
fails to parse, `some queryField` carries the optional `query` field
(`data.get('query', '')` defaults a missing field to the empty string).
Downloads and generator calls are injected; file writes are counted. -/

structure SearchImagesResult where
  status : Nat
  hasErrorField : Bool
  totalResults : Nat
  sourceCalls : Nat
  savedFiles : Nat
deriving DecidableEq

/-- `views_new.search_images`: reject blank prompts with 400 before any
generation; otherwise six Pollinations downloads (`fetch i` tells whether
download `i` returned HTTP 200), each success saved to disk; an empty
result set yields 500, otherwise 200 with the collected images. -/
def searchImagesViewNew (fetch : Nat → Bool)
    (body : Option (Option String)) : SearchImagesResult :=
  match body with
  | none =>
    { status := 400, hasErrorField := true, totalResults := 0,
      sourceCalls := 0, savedFiles := 0 }
  | some queryField =>
    if pyStrip (queryField.getD "") = "" then
      { status := 400, hasErrorField := true, totalResults := 0,
        sourceCalls := 0, savedFiles := 0 }
    else
      if ((List.range 6).filter fetch).length = 0 then
        { status := 500, hasErrorField := true, totalResults := 0,
          sourceCalls := 6, savedFiles := 0 }
      else
        { status := 200, hasErrorField := false,
          totalResults := ((List.range 6).filter fetch).length,
          sourceCalls := 6,
          savedFiles := ((List.range 6).filter fetch).length }

/-- `views_backup.search_images`: reject blank prompts with 400 before
constructing the generator; otherwise one generator invocation
(`generate prompt` is the number of images it returns and saves) and a
200 response even for zero images; a parse failure reaches the generic
handler and yields 500. -/
def searchImagesViewBackup (generate : String → Nat)
    (body : Option (Option String)) : SearchImagesResult :=
  match body with
  | none =>
    { status := 500, hasErrorField := true, totalResults := 0,
      sourceCalls := 0, savedFiles := 0 }
  | some queryField =>
    if pyStrip (queryField.getD "") = "" then
      { status := 400, hasErrorField := true, totalResults := 0,
        sourceCalls := 0, savedFiles := 0 }
    else
      { status := 200, hasErrorField := false,
        totalResults := generate (pyStrip (queryField.getD "")),
        sourceCalls := 1,
        savedFiles := generate (pyStrip (queryField.getD "")) }

/-- Claim C9: a search-images request whose query is empty after trimming
gets a 400 response with an error field, and no source invocation or
file materialization happens, in both view implementations. -/
theorem c9_empty_query_400 (fetch : Nat → Bool) (generate : String → Nat)
    (queryField : Option String)
    (hq : pyStrip (queryField.getD "") = "") :
    (searchImagesViewNew fetch (some queryField)).status = 400 ∧
      (searchImagesViewNew fetch (some queryField)).hasErrorField = true ∧
      (searchImagesViewNew fetch (some queryField)).sourceCalls = 0 ∧
      (searchImagesViewNew fetch (some queryField)).savedFiles = 0 ∧
      (searchImagesViewBackup generate (some queryField)).status = 400 ∧
      (searchImagesViewBackup generate (some queryField)).hasErrorField
        = true ∧
      (searchImagesViewBackup generate (some queryField)).sourceCalls = 0 ∧
      (searchImagesViewBackup generate (some queryField)).savedFiles = 0 := by
  rw [searchImagesViewNew, searchImagesViewBackup, if_pos hq, if_pos hq]
  exact ⟨rfl, rfl, rfl, rfl, rfl, rfl, rfl, rfl⟩

/-- Witness for C9 at a whitespace-only query. -/
theorem c9_witness :
    pyStrip ((some "   " : Option String).getD "") = "" ∧
      (searchImagesViewNew (fun _ => true) (some (some "   "))).status
        = 400 ∧
      (searchImagesViewBackup (fun _ => 6) (some (some "   "))).sourceCalls
        = 0 :=
  ⟨by decide, (c9_empty_query_400 (fun _ => true) (fun _ => 6) (some "   ")
      (by decide)).1,
    (c9_empty_query_400 (fun _ => true) (fun _ => 6) (some "   ")
      (by decide)).2.2.2.2.2.2.1⟩

/-- Claim C10: `fetch_tech_news` never returns an item whose title is in
the recently-shown list: a returned item survives the recency filter. -/
theorem c10_fetch_news_no_repeat (sources : List (Option NewsItem))
    (draw : Nat) (recentNews : List String) (n : NewsItem)
    (h : fetchTechNews sources draw recentNews = some n) :
    n.title ∉ recentNews := by
  simp only [fetchTechNews] at h
  split at h
  · exact absurd h (by simp)
  · have hmem := List.get?_mem h
    have := (List.mem_filter.mp hmem).2
    exact of_decide_eq_true this

/-- Witness for C10: a live item is returned and its title avoids the
recent list. -/
theorem c10_witness :
    (⟨"fresh", "d", "u"⟩ : NewsItem).title ∉ (["old"] : List String) :=
  c10_fetch_news_no_repeat [some ⟨"fresh", "d", "u"⟩] 0 ["old"]
    ⟨"fresh", "d", "u"⟩ (by decide)
